import Mathlib

/-!
Verification of the authentication core of the Api-Studio backend.

The Lean definitions below are a shallow embedding of the Python sources:
  * `backend/core/jwt_service.py`       (JWT session / temporary / reset tokens)
  * `backend/core/two_factor_service.py` (backup-code hashing and verification)
  * `backend/api/services/auth_service.py` (login, lockout, password reset)
  * `backend/core/middleware.py`        (hosted-mode token validation)
  * `backend/api/services/bootstrap_service.py` and
    `backend/api/routes/bootstrap.py`   (bootstrap OTP flow)

External primitives (bcrypt, SHA-256, the JSON codec, TOTP, SMTP) are
modelled as explicit function parameters; time is a natural number of
seconds since the epoch.  Database rows are Lean structures and a session
is a list of rows; commits are functional updates.
-/

namespace ApiStudio

/-! Section: JWT service (`core/jwt_service.py`)

A signed token is modelled as its decoded claims set: the fields below are
exactly the claim keys that appear in the repository calls to
`jwt.encode` (`user_id`, `sub`, `email`, `role`, `name`, `username`,
`purpose`, `step`, `backup_codes`), plus the stamped `type`, `iat`, `exp`.
Signature verification always succeeds for tokens of this type because
every value of the type was produced with the configured secret. -/

structure Payload where
  user_id : Option Nat := none
  sub : Option String := none
  email : Option String := none
  role : Option String := none
  name : Option String := none
  username : Option String := none
  purpose : Option String := none
  step : Option String := none
  backup_codes : List String := []
deriving Repr, DecidableEq

structure Token where
  payload : Payload
  typ : String
  iat : Nat
  exp : Nat
deriving Repr, DecidableEq

/-- Embedding of `JWTService.create_token`: stamps `type:"session"`, `iat`, and
`exp = now + expiry` (seconds, `settings.jwt_expiry` by default). -/
def create_token (user_data : Payload) (now expiry_seconds : Nat) : Token :=
  { payload := user_data, typ := "session", iat := now, exp := now + expiry_seconds }

/-- Embedding of `JWTService.create_temp_token`: stamps `type:"temporary"` and an expiry
`expires_minutes` minutes from now. -/
def create_temp_token (user_data : Payload) (now expires_minutes : Nat) : Token :=
  { payload := user_data, typ := "temporary", iat := now, exp := now + expires_minutes * 60 }

/-- Embedding of `JWTService.create_reset_token`: stamps `type:"reset"` and an expiry
`expires_minutes` minutes from now. -/
def create_reset_token (user_data : Payload) (now expires_minutes : Nat) : Token :=
  { payload := user_data, typ := "reset", iat := now, exp := now + expires_minutes * 60 }

/-- Embedding of `JWTService.verify_token`: decodes and checks expiry; a token whose
`exp` lies strictly in the past raises `JWTError` (modelled as `none`). -/
def verify_token (t : Token) (now : Nat) : Option Token :=
  if t.exp < now then none else some t

/-- Embedding of `JWTService.decode_temp_token`: `verify_token` followed by the explicit
`type == "temporary"` guard. -/
def decode_temp_token (t : Token) (now : Nat) : Option Token :=
  (verify_token t now).bind fun p => if p.typ == "temporary" then some p else none

/-- Embedding of `JWTService.decode_reset_token`: `verify_token` followed by the explicit
`type == "reset"` guard. -/
def decode_reset_token (t : Token) (now : Nat) : Option Token :=
  (verify_token t now).bind fun p => if p.typ == "reset" then some p else none

/-- The session-token validation path of
`AuthenticationMiddleware._validate_token` (middleware.py lines 198-207):
`verify_token` followed by the `payload.get("type") != "session"` rejection.
Returns `true` exactly when the token decodes as a session-type token. -/
def session_type_check (t : Token) (now : Nat) : Bool :=
  match verify_token t now with
  | some p => p.typ == "session"
  | none => false

/-! Section: two-factor service (`core/two_factor_service.py`)

A stored backup-code entry is the dict `{hash, salt, used}` built by
`hash_backup_codes`.  The SHA-256 hex digest is the parameter `sha`
(applied to `code ++ salt`, matching
`hashlib.sha256((code + salt).encode()).hexdigest()`), and the JSON codec
is the parameter pair `parse`/`dump`: `dump` is `json.dumps` on a list of
entries and `parse` is `json.loads` restricted to strings that decode to a
list of such entries (`parse s = none` models `json.loads` raising, the
`except (JSONDecodeError, TypeError)` path). -/

structure BackupEntry where
  hash : String
  salt : String
  used : Bool
deriving Repr, DecidableEq

/-- Embedding of `TwoFactorService.hash_backup_codes`, as the list of entry dicts before
`json.dumps`: each code is paired with its own freshly generated salt
(the salts are the random `secrets.token_hex(16)` draws, one per code)
and hashed independently as `sha256(code + salt)`. -/
def hash_backup_codes (sha : String → String) (codes salts : List String) : List BackupEntry :=
  (codes.zip salts).map fun cs => { hash := sha (cs.1 ++ cs.2), salt := cs.2, used := false }

/-- One loop iteration test of `verify_backup_code`: the entry is not yet
used and the salted digest of the provided code matches the stored hash. -/
def entry_matches (sha : String → String) (provided : String) (e : BackupEntry) : Bool :=
  !e.used && (sha (provided ++ e.salt) == e.hash)

/-- The `for code_data in stored_codes` loop of `verify_backup_code`:
skips used entries, and on the first unused entry whose digest matches it
sets `used = True` (mutating that one entry in place) and stops; `none`
when no entry matches. -/
def mark_first_match (sha : String → String) (provided : String) :
    List BackupEntry → Option (List BackupEntry)
  | [] => none
  | e :: rest =>
    if e.used then
      (mark_first_match sha provided rest).map (e :: ·)
    else if sha (provided ++ e.salt) == e.hash then
      some ({ e with used := true } :: rest)
    else
      (mark_first_match sha provided rest).map (e :: ·)

/-- Model of Python `str.upper()`: uppercases every character. -/
def py_upper (s : String) : String :=
  String.mk (s.data.map Char.toUpper)

/-- Model of Python `str.strip()`: removes whitespace from both ends. -/
def py_strip (s : String) : String :=
  String.mk (((s.data.dropWhile Char.isWhitespace).reverse.dropWhile
    Char.isWhitespace).reverse)

/-- Embedding of `TwoFactorService.verify_backup_code`: parses the stored JSON (a
parse failure — including `stored = none`, Python `None`, which makes
`json.loads` raise `TypeError` — returns `(False, input unchanged)`),
normalizes the candidate with `.upper().strip()`, marks the first unused
matching entry used, and re-serializes; when nothing matches it returns
`(False, stored_codes_json)` — the argument itself. -/
def verify_backup_code (parse : String → Option (List BackupEntry))
    (dump : List BackupEntry → String) (sha : String → String)
    (stored : Option String) (provided_code : String) : Bool × Option String :=
  match stored.bind parse with
  | none => (false, stored)
  | some stored_codes =>
    let p := py_strip (py_upper provided_code)
    match mark_first_match sha p stored_codes with
    | some updated => (true, some (dump updated))
    | none => (false, stored)

/-- Embedding of `TwoFactorService.get_unused_backup_codes_count`: number of entries
with `used` falsy; 0 when the stored value does not parse. -/
def get_unused_backup_codes_count (parse : String → Option (List BackupEntry))
    (stored : Option String) : Nat :=
  match stored.bind parse with
  | some stored_codes => (stored_codes.filter fun e => !e.used).length
  | none => 0

/-- Embedding of `TwoFactorService.normalize_backup_code_input`:
Python `code.upper()`, then removal of every dash and space,
then `strip()`. -/
def normalize_backup_code_input (code : String) : String :=
  py_strip (((py_upper code).replace "-" "").replace " " "")

/-! Section: data model (`db/models.py`)

A `User` row, restricted to the columns the authentication core reads or
writes.  `backup_codes` is the nullable TEXT column holding the JSON blob;
`locked_until` and `last_login_at` are nullable timestamps. -/

structure UserRec where
  id : Nat
  username : String
  email : String
  hashed_password : String
  name : String
  role : String
  two_factor_enabled : Bool
  two_factor_secret : String
  backup_codes : Option String
  failed_login_attempts : Nat
  locked_until : Option Nat
  status : String
  last_login_at : Option Nat
deriving Repr, DecidableEq

/-- An `OTPCode` row (`db/models.py`): email, 6-digit code, purpose tag,
expiry, attempt counter, used flag. -/
structure OtpRec where
  email : String
  otp_code : String
  otp_type : String
  expires_at : Nat
  attempts : Nat
  used : Bool
deriving Repr, DecidableEq

/-- Commit of a mutated ORM row: replaces the row with the same primary
key (ids are unique by the primary-key constraint of the table). -/
def commit_user (users : List UserRec) (u : UserRec) : List UserRec :=
  users.map fun v => if v.id == u.id then u else v

/-- Python truthiness of an optional string (`None` and `""` are falsy),
used for `if not totp_code`, `if not user.backup_codes`, etc. -/
def truthy : Option String → Bool
  | none => false
  | some s => !s.isEmpty

/-! Section: authentication service (`api/services/auth_service.py`)

External collaborators are packaged in `AuthDeps`:
`verify_password` is `password_service.verify_password` (bcrypt check),
`verify_totp s c` is `two_factor_service.verify_totp(s, c)` evaluated at
the current instant, and `parse`/`dump`/`sha` are as above for the
backup-code blob.  `AuthSettings` carries the three `core/config.py`
fields the service reads. -/

structure AuthDeps where
  verify_password : String → String → Bool
  verify_totp : String → String → Bool
  parse : String → Option (List BackupEntry)
  dump : List BackupEntry → String
  sha : String → String

structure AuthSettings where
  max_login_attempts : Nat
  login_lockout_duration : Nat
  jwt_expiry : Nat
deriving Repr, DecidableEq

/-- Embedding of `AuthService._is_account_locked`: locked iff `locked_until` is set and
the current time is strictly before it. -/
def is_account_locked (now : Nat) (u : UserRec) : Bool :=
  match u.locked_until with
  | none => false
  | some t => now < t

/-- Caller-visible outcome of `AuthService.authenticate_user`, i.e. the
returned tuple `(success, user, token, additional_data)` with the two
fields of `additional_data` the routes inspect. -/
structure AuthOutcome where
  success : Bool
  user : Option UserRec
  token : Option Token
  requires_2fa : Bool
  message : String
deriving Repr, DecidableEq

/-- Shared failure shape `(False, None, None, {"message": msg})`. -/
def auth_fail (msg : String) : AuthOutcome :=
  { success := false, user := none, token := none, requires_2fa := false, message := msg }

/-- Success tail of `authenticate_user`: reset the counter and
`locked_until`, stamp `last_login_at`, commit, and issue a session token
whose claims are
`{"sub": str(user.id), "email": ..., "role": ..., "name": ...}`. -/
def auth_success (cfg : AuthSettings) (now : Nat)
    (users : List UserRec) (u : UserRec) : AuthOutcome × List UserRec :=
  let u2 := { u with failed_login_attempts := 0, locked_until := none,
                     last_login_at := some now }
  let access_token := create_token
    { sub := some (toString u2.id), email := some u2.email,
      role := some u2.role, name := some u2.name } now cfg.jwt_expiry
  ({ success := true, user := some u2, token := some access_token,
     requires_2fa := false, message := "Login successful" }, commit_user users u2)

/-- Embedding of `AuthService.authenticate_user`.  Returns the outcome together with
the committed user table.  The row lookup is
`select(User).where(User.email == email)` (emails are unique by the
uniqueness constraint on the column, so the first match is the row). -/
def authenticate_user (cfg : AuthSettings) (deps : AuthDeps) (now : Nat)
    (users : List UserRec) (email password : String)
    (totp_code backup_code : Option String) : AuthOutcome × List UserRec :=
  match users.find? (fun u => u.email == email) with
  | none => (auth_fail "Invalid email or password", users)
  | some u =>
    if is_account_locked now u then
      (auth_fail "Account is temporarily locked due to too many failed attempts", users)
    else if u.status != "active" then
      (auth_fail "Account is suspended", users)
    else if !(deps.verify_password password u.hashed_password) then
      -- increment the counter; lock when it reaches the configured max
      let n := u.failed_login_attempts + 1
      let u2 := { u with
        failed_login_attempts := n
        locked_until :=
          if cfg.max_login_attempts ≤ n then some (now + cfg.login_lockout_duration)
          else u.locked_until }
      (auth_fail "Invalid email or password", commit_user users u2)
    else
      -- password correct; 2FA branch
      if u.two_factor_enabled then
        if !(truthy totp_code) && !(truthy backup_code) then
          ({ success := false, user := none, token := none, requires_2fa := true,
             message := "2FA verification required" }, users)
        else if truthy totp_code then
          if !(deps.verify_totp u.two_factor_secret (totp_code.getD "")) then
            let u2 := { u with failed_login_attempts := u.failed_login_attempts + 1 }
            (auth_fail "Invalid 2FA code", commit_user users u2)
          else
            auth_success cfg now users u
        else
          if !(truthy u.backup_codes) then
            (auth_fail "No backup codes available", users)
          else
            let normalized := normalize_backup_code_input (backup_code.getD "")
            let vr := verify_backup_code deps.parse deps.dump deps.sha u.backup_codes normalized
            if !vr.1 then
              let u2 := { u with failed_login_attempts := u.failed_login_attempts + 1 }
              (auth_fail "Invalid backup code", commit_user users u2)
            else
              auth_success cfg now users { u with backup_codes := vr.2 }
      else
        auth_success cfg now users u

/-- Embedding of `AuthService.initiate_password_reset`.  Returns the caller-visible
result (always `True`), the committed `OTPCode` table, and the list of
OTP emails actually handed to the mail transport (`email_ok = false`
models `send_password_reset_otp` raising: the exception is swallowed).
`gen_otp` is the fresh `password_service.generate_otp()` draw. -/
def initiate_password_reset (otp_expiry now : Nat) (gen_otp : String) (email_ok : Bool)
    (users : List UserRec) (otps : List OtpRec) (email : String) :
    Bool × List OtpRec × List (String × String) :=
  match users.find? (fun u => u.email == email) with
  | some u =>
    if u.status == "active" then
      let otp_record : OtpRec :=
        { email := email, otp_code := gen_otp, otp_type := "forgot_password",
          expires_at := now + otp_expiry, attempts := 0, used := false }
      (true, otps ++ [otp_record], if email_ok then [(email, gen_otp)] else [])
    else
      (true, otps, [])
  | none => (true, otps, [])

/-! Section: hosted-mode middleware (`core/middleware.py`) -/

/-- The identity dict `_validate_token` attaches to `request.state.user`. -/
structure Identity where
  user_id : Nat
  email : String
  role : String
  username : String
  name : String
deriving Repr, DecidableEq

/-- Result of `AuthenticationMiddleware._validate_token`: either the
attached identity or an `HTTPException(401, detail)`. -/
inductive MwResult where
  | ok (identity : Identity)
  | reject (detail : String)
deriving Repr, DecidableEq

/-- Embedding of `AuthenticationMiddleware._validate_token`: decode, require
`type == "session"`, read `payload.get("user_id")` (`None` — and `0`,
both falsy — reject), then require the referenced user to exist, be
active, and not be locked-until a future instant; on success return the
identity dict built from the user row. -/
def validate_token (t : Token) (now : Nat) (users : List UserRec) : MwResult :=
  match verify_token t now with
  | none => .reject "Token validation failed"
  | some payload =>
    if payload.typ != "session" then .reject "Invalid token type"
    else
      match payload.payload.user_id with
      | none => .reject "Invalid token payload"
      | some uid =>
        if uid == 0 then .reject "Invalid token payload"
        else
          match users.find? (fun v => v.id == uid) with
          | none => .reject "User not found"
          | some user =>
            if user.status != "active" then .reject "Account is not active"
            else if is_account_locked now user then .reject "Account is temporarily locked"
            else .ok { user_id := user.id, email := user.email, role := user.role,
                       username := user.username, name := user.name }

/-! Section: bootstrap service (`api/services/bootstrap_service.py`) and its
route layer (`api/routes/bootstrap.py`) -/

/-- Embedding of `BootstrapService.is_system_locked`: locked iff no user row with
`role == "admin"` and `status == "active"` exists. -/
def is_system_locked (users : List UserRec) : Bool :=
  !(users.any fun u => u.role == "admin" && u.status == "active")

/-- Embedding of `BootstrapService.validate_bootstrap_token`: false when no bootstrap
token is configured, else string equality with the configured secret. -/
def validate_bootstrap_token (admin_bootstrap_token : Option String) (token : String) : Bool :=
  match admin_bootstrap_token with
  | none => false
  | some configured => token == configured

/-- Splits a list at the first element satisfying `p`
(`session.execute(...).scalars().first()` plus the surrounding rows),
so that deleting or updating that one row is a functional operation. -/
def find_split (p : α → Bool) : List α → Option (List α × α × List α)
  | [] => none
  | x :: rest =>
    if p x then some ([], x, rest)
    else (find_split p rest).map fun s => (x :: s.1, s.2.1, s.2.2)

/-- The `OTPCode` row predicate used by the bootstrap flow:
`email == e`, `otp_type == "bootstrap"`, and (for the verify path)
`used == False`. -/
def bootstrap_otp_pred (email : String) (r : OtpRec) : Bool :=
  r.email == email && r.otp_type == "bootstrap" && !r.used

/-- Embedding of `BootstrapService.initiate_bootstrap`, state part.  `smtp_ok` is the
outcome of `email_service.test_connection_async()` and `email_ok` of
`email_service.send_otp(...)`; `gen_otp` is the fresh OTP draw.  On the
path past the SMTP test it deletes every existing bootstrap OTP row for
the email, commits a fresh row, and only then attempts the send (the row
survives a failed send).  Returns `(success, message)` and the committed
`OTPCode` table. -/
def initiate_bootstrap (admin_bootstrap_token : Option String) (otp_expiry now : Nat)
    (gen_otp : String) (smtp_ok email_ok : Bool)
    (users : List UserRec) (otps : List OtpRec) (token email : String) :
    (Bool × String) × List OtpRec :=
  if !(is_system_locked users) then
    ((false, "System already has admin users. Bootstrap not required."), otps)
  else if !(validate_bootstrap_token admin_bootstrap_token token) then
    ((false, "Invalid bootstrap token."), otps)
  else if !smtp_ok then
    ((false, "SMTP connection failed"), otps)
  else
    let remaining := otps.filter fun r => !(r.email == email && r.otp_type == "bootstrap")
    let otp_record : OtpRec :=
      { email := email, otp_code := gen_otp, otp_type := "bootstrap",
        expires_at := now + otp_expiry, attempts := 0, used := false }
    let committed := remaining ++ [otp_record]
    if !email_ok then
      ((false, "Failed to send verification email. Please check SMTP configuration."), committed)
    else
      ((true, "Bootstrap initiated. Please check your email for the verification code."), committed)

/-- Embedding of `BootstrapService.verify_bootstrap_otp` (the service method): finds
the unused bootstrap OTP row for the email, enforces expiry and the
3-attempt cap (deleting the row on either), compares the code
(incrementing `attempts` on mismatch), and on success marks the row used
and issues a 15-minute temporary token with `purpose:"admin_setup"`. -/
def verify_bootstrap_otp (now : Nat) (otps : List OtpRec) (email otp : String) :
    (Bool × String × Option Token) × List OtpRec :=
  match find_split (bootstrap_otp_pred email) otps with
  | none => ((false, "Invalid or expired verification code.", none), otps)
  | some (pre, otp_record, post) =>
    if otp_record.expires_at < now then
      ((false, "Verification code has expired. Please restart the bootstrap process.", none),
        pre ++ post)
    else if 3 ≤ otp_record.attempts then
      ((false, "Too many failed attempts. Please restart the bootstrap process.", none),
        pre ++ post)
    else if otp_record.otp_code != otp then
      ((false, "Invalid verification code.", none),
        pre ++ [{ otp_record with attempts := otp_record.attempts + 1 }] ++ post)
    else
      let temp_token := create_temp_token
        { email := some email, purpose := some "admin_setup", step := some "password_setup" }
        now 15
      ((true, "Verification successful. You can now set up your admin account.",
        some temp_token), pre ++ [{ otp_record with used := true }] ++ post)

/-- The `POST /api/bootstrap/verify-otp` handler
(`api/routes/bootstrap.py`, `verify_bootstrap_otp`): requires hosted
mode, re-checks that the system is still locked (rejecting with
`SYSTEM_NOT_LOCKED` when an active admin already exists), and only then
delegates to the service method. -/
def verify_bootstrap_otp_route (app_mode : String) (now : Nat)
    (users : List UserRec) (otps : List OtpRec) (email otp : String) :
    (Bool × String × Option Token) × List OtpRec :=
  if app_mode != "hosted" then
    ((false, "Bootstrap is only available in hosted mode", none), otps)
  else if !(is_system_locked users) then
    ((false, "System already has admin users. Bootstrap not required.", none), otps)
  else
    verify_bootstrap_otp now otps email otp

/-- Embedding of `BootstrapService.verify_2fa_setup`: decodes the temporary setup
token, requires `purpose == "2fa_setup"` and a truthy `user_id`, requires
the referenced user to be in status `pending_2fa`, verifies the TOTP
code, and then persists the backup codes carried in the token as
`",".join(password_service.hash_password(code) for code in backup_codes)`
(`bcrypt` is the parameter for `hash_password`), flips the user to
active, stamps `last_login_at`, and issues a session token (whose claims
include `user_id`).  Returns `(success, message, access_token)` and the
committed user table. -/
def verify_2fa_setup (bcrypt : String → String) (verify_totp : String → String → Bool)
    (jwt_expiry now : Nat) (users : List UserRec) (setup_token : Token)
    (totp_code : String) : (Bool × String × Option Token) × List UserRec :=
  match decode_temp_token setup_token now with
  | none => ((false, "Invalid or expired setup token.", none), users)
  | some token_data =>
    if token_data.payload.purpose != some "2fa_setup" then
      ((false, "Invalid setup token.", none), users)
    else
      match token_data.payload.user_id with
      | none => ((false, "Invalid token data.", none), users)
      | some uid =>
        if uid == 0 then ((false, "Invalid token data.", none), users)
        else
          let backup_codes := token_data.payload.backup_codes
          match users.find? (fun v => v.id == uid) with
          | none => ((false, "Invalid user state for 2FA setup.", none), users)
          | some user =>
            if user.status != "pending_2fa" then
              ((false, "Invalid user state for 2FA setup.", none), users)
            else if !(verify_totp user.two_factor_secret totp_code) then
              ((false, "Invalid verification code. Please try again.", none), users)
            else
              let user2 := { user with
                two_factor_enabled := true
                backup_codes := some (String.intercalate "," (backup_codes.map bcrypt))
                status := "active"
                last_login_at := some now }
              let access_token := create_token
                { user_id := some user2.id, email := some user2.email,
                  role := some user2.role, username := some user2.username }
                now jwt_expiry
              ((true, "Admin setup completed successfully. Welcome to API Studio!",
                some access_token), commit_user users user2)

/-- Shared concrete configuration for witnesses and counterexamples:
`max_login_attempts = 5`, `login_lockout_duration = 900`,
`jwt_expiry = 86400` (the `core/config.py` defaults). -/
def cfg_c : AuthSettings := ⟨5, 900, 86400⟩

/-- Shared concrete collaborators: password check is plain string
equality with the stored value, every TOTP code is rejected, the JSON
parser accepts nothing, and the digest is the identity. -/
def deps_c : AuthDeps :=
  ⟨fun p h => p == h, fun _ _ => false, fun _ => none, fun _ => "[]", fun s => s⟩

/-- Shared concrete user row: active admin, no 2FA, no lock. -/
def alice : UserRec :=
  ⟨1, "alice", "alice@x.com", "Secret", "Alice", "admin", false, "", none, 0, none,
    "active", none⟩

/-- Count of active (unused, unexpired) `OTPCode` rows for an email and
purpose; "expired" is the `now > expires_at` test of the code. -/
def active_otp_count (now : Nat) (otps : List OtpRec) (email purpose : String) : Nat :=
  (otps.filter fun r =>
    r.email == email && r.otp_type == purpose && !r.used && !(r.expires_at < now)).length

/-- Entry list after `verify_backup_code` has marked the entry of code
`c`: identical to `hash_backup_codes` except that the `used` flag of the
entries whose code equals `c` is set (a proof-side description of the
mutated list; with distinct codes exactly one flag is set). -/
def marked_entries (sha : String → String) (c : String)
    (pl : List (String × String)) : List BackupEntry :=
  pl.map fun x => { hash := sha (x.1 ++ x.2), salt := x.2, used := x.1 == c }

/-- Ten distinct freshly generated backup codes for the C6 witness. -/
def codes_c : List String :=
  ["AAAA0000", "BBBB1111", "CCCC2222", "DDDD3333", "EEEE4444",
   "FFFF5555", "GGGG6666", "HHHH7777", "IIII8888", "JJJJ9999"]

/-- Ten per-code salts for the C6 witness. -/
def salts_c : List String :=
  ["s0", "s1", "s2", "s3", "s4", "s5", "s6", "s7", "s8", "s9"]

/-- The stored entry list of the C6 witness (digest = identity). -/
def entries_fresh_c : List BackupEntry := hash_backup_codes (fun s => s) codes_c salts_c

/-- The C6 witness entry list after the first code has been used. -/
def entries_marked_c : List BackupEntry :=
  (mark_first_match (fun s => s) "AAAA0000" entries_fresh_c).getD []

/-- A concrete JSON serializer for the C6 witness: the two entry lists
that occur in the scenario get distinct strings. -/
def dump_c : List BackupEntry → String :=
  fun l => if l == entries_marked_c then "MARKED" else "FRESH"

/-- The matching concrete JSON parser for the C6 witness. -/
def parse_c : String → Option (List BackupEntry) :=
  fun s =>
    if s == "MARKED" then some entries_marked_c
    else if s == "FRESH" then some entries_fresh_c
    else none

/-- Concrete pending-2FA admin row for the C5 witness, as created by
`setup_first_time_password`. -/
def pend_admin : UserRec :=
  ⟨3, "adm", "adm@x.com", "HASH", "Adm", "admin", false, "SECRETBASE32", none, 0, none,
    "pending_2fa", none⟩

/-! Section: theorems about the claims -/

/-- C2: for all tokens created by `create_token`, `create_temp_token`, or
`create_reset_token` (each checked inside its validity window),
`decode_temp_token` succeeds iff the token came from `create_temp_token`,
`decode_reset_token` succeeds iff it came from `create_reset_token`, and
the middleware session-token validation path succeeds iff it came from
`create_token` — cross-calling a token of one kind into the validator of
another kind always fails. -/
theorem c2_token_type_isolation (p : Payload) (now ttl m1 m2 checkt : Nat)
    (hs : checkt ≤ now + ttl)
    (h1 : checkt ≤ now + m1 * 60) (h2 : checkt ≤ now + m2 * 60) :
    (decode_temp_token (create_temp_token p now m1) checkt).isSome = true ∧
    decode_temp_token (create_token p now ttl) checkt = none ∧
    decode_temp_token (create_reset_token p now m2) checkt = none ∧
    (decode_reset_token (create_reset_token p now m2) checkt).isSome = true ∧
    decode_reset_token (create_token p now ttl) checkt = none ∧
    decode_reset_token (create_temp_token p now m1) checkt = none ∧
    session_type_check (create_token p now ttl) checkt = true ∧
    session_type_check (create_temp_token p now m1) checkt = false ∧
    session_type_check (create_reset_token p now m2) checkt = false := by
  have hs := Nat.not_lt.mpr hs
  have h1 := Nat.not_lt.mpr h1
  have h2 := Nat.not_lt.mpr h2
  refine ⟨?_, ?_, ?_, ?_, ?_, ?_, ?_, ?_, ?_⟩ <;>
    simp [decode_temp_token, decode_reset_token, session_type_check, verify_token,
      create_token, create_temp_token, create_reset_token, hs, h1, h2]

/-- Witness for C2 at a concrete payload and times. -/
theorem c2_token_type_isolation_witness :
    (decode_temp_token (create_temp_token {} 0 15) 50).isSome = true ∧
    decode_temp_token (create_token {} 0 100) 50 = none ∧
    decode_temp_token (create_reset_token {} 0 30) 50 = none ∧
    (decode_reset_token (create_reset_token {} 0 30) 50).isSome = true ∧
    decode_reset_token (create_token {} 0 100) 50 = none ∧
    decode_reset_token (create_temp_token {} 0 15) 50 = none ∧
    session_type_check (create_token {} 0 100) 50 = true ∧
    session_type_check (create_temp_token {} 0 15) 50 = false ∧
    session_type_check (create_reset_token {} 0 30) 50 = false :=
  c2_token_type_isolation {} 0 100 15 30 50 (by decide) (by decide) (by decide)

/-- C10: `verify_backup_code` is total and non-mutating on failure — when
the stored value does not parse as the backup-code JSON (including Python
`None`), it returns `(False, the stored argument unchanged)`, and whenever
it reports failure the returned stored structure is exactly the input
(the used flag is mutated only on a successful match). -/
theorem c10_verify_backup_code_nonmutating
    (parse : String → Option (List BackupEntry)) (dump : List BackupEntry → String)
    (sha : String → String) (stored : Option String) (c : String) :
    (stored.bind parse = none →
      verify_backup_code parse dump sha stored c = (false, stored)) ∧
    ((verify_backup_code parse dump sha stored c).1 = false →
      (verify_backup_code parse dump sha stored c).2 = stored) := by
  unfold verify_backup_code
  cases hb : stored.bind parse with
  | none => exact ⟨fun _ => rfl, fun _ => rfl⟩
  | some l =>
    refine ⟨fun h => by simp at h, ?_⟩
    cases hm : mark_first_match sha (py_strip (py_upper c)) l with
    | none => intro _; simp [hm]
    | some l2 => intro h; simp [hm] at h

/-- Witness for C10: `None` and a comma-joined string (not valid JSON,
so any parser refuses it) are returned unchanged with `False`. -/
theorem c10_verify_backup_code_nonmutating_witness :
    verify_backup_code (fun _ => none) (fun _ => "[]") (fun s => s) none "X"
      = (false, none) ∧
    verify_backup_code (fun _ => none) (fun _ => "[]") (fun s => s)
      (some "$2b$12$abc,$2b$12$def") "X" = (false, some "$2b$12$abc,$2b$12$def") :=
  ⟨(c10_verify_backup_code_nonmutating _ _ _ none "X").1 rfl,
   (c10_verify_backup_code_nonmutating _ _ _ (some "$2b$12$abc,$2b$12$def") "X").1 rfl⟩

/-- C8: `initiate_password_reset` returns the identical success outcome
(`True`) to the caller whether or not a user exists for the email; an
`OTPCode` row is created and an email sent only when an active user with
that address exists. -/
theorem c8_reset_enumeration_resistance (otp_expiry now : Nat) (gen_otp : String)
    (email_ok : Bool) (users : List UserRec) (otps : List OtpRec) (email : String) :
    (initiate_password_reset otp_expiry now gen_otp email_ok users otps email).1 = true ∧
    ((∀ u ∈ users, ¬(u.email = email ∧ u.status = "active")) →
      (initiate_password_reset otp_expiry now gen_otp email_ok users otps email).2.1 = otps ∧
      (initiate_password_reset otp_expiry now gen_otp email_ok users otps email).2.2 = []) ∧
    (∀ users2 : List UserRec,
      (initiate_password_reset otp_expiry now gen_otp email_ok users otps email).1 =
      (initiate_password_reset otp_expiry now gen_otp email_ok users2 otps email).1) := by
  have hfst : ∀ us : List UserRec,
      (initiate_password_reset otp_expiry now gen_otp email_ok us otps email).1 = true := by
    intro us
    unfold initiate_password_reset
    cases h : us.find? (fun u => u.email == email) with
    | none => rfl
    | some u => by_cases hs : u.status == "active" <;> simp [hs]
  refine ⟨hfst users, ?_, fun users2 => (hfst users).trans (hfst users2).symm⟩
  intro hnone
  unfold initiate_password_reset
  cases h : users.find? (fun u => u.email == email) with
  | none => exact ⟨rfl, rfl⟩
  | some u =>
    have hmem := List.mem_of_find?_eq_some h
    have hpred := List.find?_some h
    have hemail : u.email = email := by simpa using hpred
    have hstat : ¬ u.status = "active" := fun hs => hnone u hmem ⟨hemail, hs⟩
    have : (u.status == "active") = false := by simpa using hstat
    simp [this]

/-- Witness for C8 on an empty user table: the call still reports
success, writes no OTP row, and sends no email. -/
theorem c8_reset_enumeration_resistance_witness :
    (initiate_password_reset 600 0 "123456" true [] [] "a@x.com").1 = true ∧
    (initiate_password_reset 600 0 "123456" true [] [] "a@x.com").2.1 = [] ∧
    (initiate_password_reset 600 0 "123456" true [] [] "a@x.com").2.2 = [] :=
  ⟨(c8_reset_enumeration_resistance 600 0 "123456" true [] [] "a@x.com").1,
   ((c8_reset_enumeration_resistance 600 0 "123456" true [] [] "a@x.com").2.1
      (by intro u hu; cases hu)).1,
   ((c8_reset_enumeration_resistance 600 0 "123456" true [] [] "a@x.com").2.1
      (by intro u hu; cases hu)).2⟩

/-- C7: the `POST /api/bootstrap/verify-otp` call re-checks that the
system is still locked before accepting the code — if an active admin
user already exists when the OTP is submitted (e.g. a concurrent
bootstrap completed first), the call is rejected, no temporary
`admin_setup` token is issued, and the OTP table is untouched.  (The
re-check lives in the route handler `verify_bootstrap_otp` of
`api/routes/bootstrap.py`, which wraps the service method.) -/
theorem c7_verify_otp_rechecks_lock (now : Nat) (users : List UserRec)
    (otps : List OtpRec) (email otp : String)
    (hadmin : (users.any fun u => u.role == "admin" && u.status == "active") = true) :
    verify_bootstrap_otp_route "hosted" now users otps email otp
      = ((false, "System already has admin users. Bootstrap not required.", none), otps) := by
  simp [verify_bootstrap_otp_route, is_system_locked, hadmin]

/-- Witness for C7: one active admin row forces the rejection. -/
theorem c7_verify_otp_rechecks_lock_witness :
    verify_bootstrap_otp_route "hosted" 0
      [⟨1, "alice", "alice@x.com", "Secret", "Alice", "admin", false, "", none, 0, none,
        "active", none⟩]
      [⟨"x@y.com", "111111", "bootstrap", 900, 0, false⟩] "x@y.com" "111111"
      = ((false, "System already has admin users. Bootstrap not required.", none),
         [⟨"x@y.com", "111111", "bootstrap", 900, 0, false⟩]) :=
  c7_verify_otp_rechecks_lock 0 _ _ "x@y.com" "111111" (by decide)

/-- Helper: on a single-row user table, a wrong-password login increments
the failed-attempt counter and sets `locked_until` exactly when the new
counter reaches `max_login_attempts`. -/
theorem auth_wrong_pw_single (cfg : AuthSettings) (deps : AuthDeps) (now : Nat)
    (v : UserRec) (pw e : String) (he : v.email = e)
    (hst : v.status = "active") (hl : v.locked_until = none)
    (hpw : deps.verify_password pw v.hashed_password = false) :
    authenticate_user cfg deps now [v] e pw none none
      = (auth_fail "Invalid email or password",
         [{ v with failed_login_attempts := v.failed_login_attempts + 1,
                   locked_until :=
                     if cfg.max_login_attempts ≤ v.failed_login_attempts + 1
                     then some (now + cfg.login_lockout_duration) else none }]) := by
  have hf : ([v].find? fun u => u.email == e) = some v := by simp [he]
  have hlock : is_account_locked now v = false := by simp [is_account_locked, hl]
  simp [authenticate_user, hf, hlock, hst, hpw, hl, commit_user]

/-- Helper: a locked account rejects any login attempt and leaves the
table unchanged. -/
theorem auth_locked_single (cfg : AuthSettings) (deps : AuthDeps) (now : Nat)
    (v : UserRec) (pw e : String) (totp bc : Option String) (he : v.email = e)
    (hl : is_account_locked now v = true) :
    authenticate_user cfg deps now [v] e pw totp bc
      = (auth_fail "Account is temporarily locked due to too many failed attempts", [v]) := by
  have hf : ([v].find? fun u => u.email == e) = some v := by simp [he]
  simp [authenticate_user, hf, hl]

/-- Helper: with the correct password, no 2FA, active status and no
active lock, login succeeds. -/
theorem auth_success_single (cfg : AuthSettings) (deps : AuthDeps) (now : Nat)
    (v : UserRec) (pw e : String) (he : v.email = e)
    (hst : v.status = "active") (hl : is_account_locked now v = false)
    (hpw : deps.verify_password pw v.hashed_password = true)
    (h2 : v.two_factor_enabled = false) :
    (authenticate_user cfg deps now [v] e pw none none).1.success = true := by
  have hf : ([v].find? fun u => u.email == e) = some v := by simp [he]
  simp [authenticate_user, hf, hl, hst, hpw, h2, auth_success]

/-- C3: with `max_login_attempts = 5`, five consecutive failed password
attempts against one account set `locked_until` to a future time, and a
sixth `authenticate_user` call — even with the correct password — is
rejected with the lockout message while that time has not passed, and
succeeds once it has. -/
theorem c3_lockout_threshold (cfg : AuthSettings) (deps : AuthDeps) (now : Nat)
    (u : UserRec) (wrong_pw right_pw : String)
    (st1 st2 st3 st4 st5 : List UserRec)
    (hmax : cfg.max_login_attempts = 5)
    (hdur : 0 < cfg.login_lockout_duration)
    (hstatus : u.status = "active") (h2fa : u.two_factor_enabled = false)
    (hcount : u.failed_login_attempts = 0) (hlocked : u.locked_until = none)
    (hwrong : deps.verify_password wrong_pw u.hashed_password = false)
    (hright : deps.verify_password right_pw u.hashed_password = true)
    (h1 : st1 = (authenticate_user cfg deps now [u] u.email wrong_pw none none).2)
    (h2 : st2 = (authenticate_user cfg deps now st1 u.email wrong_pw none none).2)
    (h3 : st3 = (authenticate_user cfg deps now st2 u.email wrong_pw none none).2)
    (h4 : st4 = (authenticate_user cfg deps now st3 u.email wrong_pw none none).2)
    (h5 : st5 = (authenticate_user cfg deps now st4 u.email wrong_pw none none).2)
    (t6 t7 : Nat) (ht6 : t6 < now + cfg.login_lockout_duration)
    (ht7 : now + cfg.login_lockout_duration ≤ t7) :
    st5 = [{ u with failed_login_attempts := 5,
                    locked_until := some (now + cfg.login_lockout_duration) }] ∧
    now < now + cfg.login_lockout_duration ∧
    (authenticate_user cfg deps t6 st5 u.email right_pw none none).1
      = auth_fail "Account is temporarily locked due to too many failed attempts" ∧
    (authenticate_user cfg deps t7 st5 u.email right_pw none none).1.success = true := by
  have e1 : st1 = [{ u with failed_login_attempts := 1, locked_until := none }] := by
    rw [h1, auth_wrong_pw_single cfg deps now u wrong_pw u.email rfl hstatus hlocked hwrong,
      hcount, hmax]
    simp
  have e2 : st2 = [{ u with failed_login_attempts := 2, locked_until := none }] := by
    rw [h2, e1, auth_wrong_pw_single cfg deps now
      { u with failed_login_attempts := 1, locked_until := none } wrong_pw u.email rfl
      hstatus rfl hwrong, hmax]
    simp
  have e3 : st3 = [{ u with failed_login_attempts := 3, locked_until := none }] := by
    rw [h3, e2, auth_wrong_pw_single cfg deps now
      { u with failed_login_attempts := 2, locked_until := none } wrong_pw u.email rfl
      hstatus rfl hwrong, hmax]
    simp
  have e4 : st4 = [{ u with failed_login_attempts := 4, locked_until := none }] := by
    rw [h4, e3, auth_wrong_pw_single cfg deps now
      { u with failed_login_attempts := 3, locked_until := none } wrong_pw u.email rfl
      hstatus rfl hwrong, hmax]
    simp
  have e5 : st5 = [{ u with
      failed_login_attempts := 5,
      locked_until := some (now + cfg.login_lockout_duration) }] := by
    rw [h5, e4, auth_wrong_pw_single cfg deps now
      { u with failed_login_attempts := 4, locked_until := none } wrong_pw u.email rfl
      hstatus rfl hwrong, hmax]
    simp
  refine ⟨e5, by omega, ?_, ?_⟩
  · rw [e5, auth_locked_single cfg deps t6
      { u with failed_login_attempts := 5,
               locked_until := some (now + cfg.login_lockout_duration) }
      right_pw u.email none none rfl (by simp [is_account_locked, ht6])]
  · rw [e5]
    exact auth_success_single cfg deps t7
      { u with failed_login_attempts := 5,
               locked_until := some (now + cfg.login_lockout_duration) }
      right_pw u.email rfl hstatus (by simp [is_account_locked]; omega) hright h2fa

/-- Witness for C3: the locked account produced by the five failures
rejects the correct password at `t = 1500 < 1900` and accepts it at
`t = 1900`. -/
theorem c3_lockout_threshold_witness :
    (authenticate_user cfg_c deps_c 1500
        [{ alice with failed_login_attempts := 5, locked_until := some (1000 + 900) }]
        "alice@x.com" "Secret" none none).1
      = auth_fail "Account is temporarily locked due to too many failed attempts" ∧
    (authenticate_user cfg_c deps_c 1900
        [{ alice with failed_login_attempts := 5, locked_until := some (1000 + 900) }]
        "alice@x.com" "Secret" none none).1.success = true := by
  have h := c3_lockout_threshold cfg_c deps_c 1000 alice "wrong" "Secret"
      [{ alice with failed_login_attempts := 1 }]
      [{ alice with failed_login_attempts := 2 }]
      [{ alice with failed_login_attempts := 3 }]
      [{ alice with failed_login_attempts := 4 }]
      [{ alice with failed_login_attempts := 5, locked_until := some (1000 + 900) }]
      rfl (by decide) rfl rfl rfl rfl (by decide) (by decide)
      (by decide) (by decide) (by decide) (by decide) (by decide)
      1500 1900 (by decide) (by decide)
  exact ⟨h.2.2.1, h.2.2.2⟩

/-- Counterexample to C4: a user with 2FA enabled, counter 4 and
`max_login_attempts = 5` supplies the correct password and a wrong TOTP
code.  The counter reaches the configured maximum (5) but `locked_until`
stays `None` — whereas a password failure from the same state does set
`locked_until` — so a 2FA failure does not increment "identically to a
password failure — including setting locked_until". -/
theorem c4_counterexample :
    cfg_c.max_login_attempts = 5 ∧
    (authenticate_user cfg_c deps_c 1000
        [{ alice with two_factor_enabled := true, two_factor_secret := "TOTPSECRET",
                      failed_login_attempts := 4 }]
        "alice@x.com" "Secret" (some "123456") none).2
      = [{ alice with two_factor_enabled := true, two_factor_secret := "TOTPSECRET",
                      failed_login_attempts := 5 }] ∧
    ({ alice with two_factor_enabled := true, two_factor_secret := "TOTPSECRET",
                  failed_login_attempts := 5 } : UserRec).locked_until = none ∧
    (authenticate_user cfg_c deps_c 1000
        [{ alice with two_factor_enabled := true, two_factor_secret := "TOTPSECRET",
                      failed_login_attempts := 4 }]
        "alice@x.com" "WRONGPW" none none).2
      = [{ alice with two_factor_enabled := true, two_factor_secret := "TOTPSECRET",
                      failed_login_attempts := 5, locked_until := some 1900 }] := by
  decide

/-- C4 amended: during login with 2FA enabled, a failed TOTP
verification or a failed backup-code verification increments the
failed-login-attempt counter by exactly 1 — but, unlike a password
failure, it never sets `locked_until`, even when the counter reaches the
configured maximum; the lockout only takes effect through a later
password failure. -/
theorem c4_2fa_failure_increments_counter_only
    (cfg : AuthSettings) (deps : AuthDeps) (now : Nat)
    (v : UserRec) (pw : String) (totp bc : Option String)
    (hst : v.status = "active") (hl : is_account_locked now v = false)
    (hpw : deps.verify_password pw v.hashed_password = true)
    (h2 : v.two_factor_enabled = true) :
    (truthy totp = true →
      deps.verify_totp v.two_factor_secret (totp.getD "") = false →
      authenticate_user cfg deps now [v] v.email pw totp none
        = (auth_fail "Invalid 2FA code",
           [{ v with failed_login_attempts := v.failed_login_attempts + 1 }])) ∧
    (truthy bc = true → truthy v.backup_codes = true →
      (verify_backup_code deps.parse deps.dump deps.sha v.backup_codes
          (normalize_backup_code_input (bc.getD ""))).1 = false →
      authenticate_user cfg deps now [v] v.email pw none bc
        = (auth_fail "Invalid backup code",
           [{ v with failed_login_attempts := v.failed_login_attempts + 1 }])) := by
  have hf : ([v].find? fun u => u.email == v.email) = some v := by simp
  constructor
  · intro htt hbad
    simp [authenticate_user, hf, hl, hst, hpw, h2, htt, hbad, commit_user]
  · intro hbt hbc hfail
    have hnone : truthy none = false := rfl
    simp [authenticate_user, hf, hl, hst, hpw, h2, hbt, hbc, hfail, hnone, commit_user]

/-- Witness for the amended C4: both 2FA failure paths at a concrete
user with counter 4 — the committed row has counter 5 and no lock. -/
theorem c4_2fa_failure_increments_counter_only_witness :
    authenticate_user cfg_c deps_c 1000
      [{ alice with two_factor_enabled := true, two_factor_secret := "TOTPSECRET",
                    failed_login_attempts := 4 }]
      "alice@x.com" "Secret" (some "123456") none
      = (auth_fail "Invalid 2FA code",
         [{ alice with two_factor_enabled := true, two_factor_secret := "TOTPSECRET",
                       failed_login_attempts := 5 }]) ∧
    authenticate_user cfg_c deps_c 1000
      [{ alice with two_factor_enabled := true, two_factor_secret := "TOTPSECRET",
                    failed_login_attempts := 4, backup_codes := some "[]" }]
      "alice@x.com" "Secret" none (some "AAAA-1111")
      = (auth_fail "Invalid backup code",
         [{ alice with two_factor_enabled := true, two_factor_secret := "TOTPSECRET",
                       failed_login_attempts := 5, backup_codes := some "[]" }]) :=
  ⟨(c4_2fa_failure_increments_counter_only cfg_c deps_c 1000
      { alice with two_factor_enabled := true, two_factor_secret := "TOTPSECRET",
                   failed_login_attempts := 4 }
      "Secret" (some "123456") none rfl (by decide) (by decide) rfl).1
      (by decide) (by decide),
   (c4_2fa_failure_increments_counter_only cfg_c deps_c 1000
      { alice with two_factor_enabled := true, two_factor_secret := "TOTPSECRET",
                   failed_login_attempts := 4, backup_codes := some "[]" }
      "Secret" none (some "AAAA-1111") rfl (by decide) (by decide) rfl).2
      (by decide) (by decide) (by decide)⟩

/-- C1 (code bug): a successful `authenticate_user` login returns a
session token whose claims carry `"sub"` but no `"user_id"`; presenting
that token to the hosted-mode middleware — with the user still existing,
active, and unlocked — is rejected with "Invalid token payload" instead
of validating and attaching the identity, because
`AuthenticationMiddleware._validate_token` reads
`payload.get("user_id")`. -/
theorem c1_login_token_rejected_by_middleware :
    (authenticate_user cfg_c deps_c 1000 [alice] "alice@x.com" "Secret" none none).1.success
      = true ∧
    ((authenticate_user cfg_c deps_c 1000 [alice] "alice@x.com" "Secret" none none).1.token.map
        fun t => t.payload.user_id) = some none ∧
    ((authenticate_user cfg_c deps_c 1000 [alice] "alice@x.com" "Secret" none none).1.token.map
        fun t => validate_token t 1000
          (authenticate_user cfg_c deps_c 1000 [alice] "alice@x.com" "Secret" none none).2)
      = some (.reject "Invalid token payload") := by
  decide

/-- Helper: filtering by `p` after keeping only the elements on which
`p` is false yields the empty list. -/
theorem filter_not_filter (p : α → Bool) (l : List α) :
    (l.filter fun a => !(p a)).filter p = [] := by
  induction l with
  | nil => rfl
  | cons x xs ih => by_cases h : p x <;> simp [List.filter_cons, h, ih]

/-- Counterexample to C9: with one active (unused, unexpired)
`forgot_password` OTP row already present for `bob@x.com`, issuing a new
code via `initiate_password_reset` leaves the prior row in place — two
active rows for the same (email, purpose) coexist, so issuing does not
remove or invalidate prior active codes for every purpose. -/
theorem c9_counterexample :
    (initiate_password_reset 600 100 "222222" true
        [⟨2, "bob", "bob@x.com", "Pw", "Bob", "editor", false, "", none, 0, none,
          "active", none⟩]
        [⟨"bob@x.com", "111111", "forgot_password", 5000, 0, false⟩] "bob@x.com").2.1
      = [⟨"bob@x.com", "111111", "forgot_password", 5000, 0, false⟩,
         ⟨"bob@x.com", "222222", "forgot_password", 700, 0, false⟩] ∧
    active_otp_count 100
      (initiate_password_reset 600 100 "222222" true
        [⟨2, "bob", "bob@x.com", "Pw", "Bob", "editor", false, "", none, 0, none,
          "active", none⟩]
        [⟨"bob@x.com", "111111", "forgot_password", 5000, 0, false⟩] "bob@x.com").2.1
      "bob@x.com" "forgot_password" = 2 := by
  decide

/-- C9 amended: issuing a new bootstrap code deletes every prior
`OTPCode` row for that email and the bootstrap purpose, so at most the
fresh row remains for that pair; but `initiate_password_reset` only
appends its new `forgot_password` row, leaving any prior rows — active
ones included — untouched, so the at-most-one-active-row property does
not hold for the `forgot_password` purpose (and invitation codes are
stored on the `Invitation` row, not in `OTPCode`). -/
theorem c9_amended_otp_supersession
    (abt : Option String) (otp_expiry now : Nat) (gen_otp : String)
    (smtp_ok email_ok : Bool) (users : List UserRec) (otps : List OtpRec)
    (token email : String)
    (hlocked : is_system_locked users = true)
    (htok : validate_bootstrap_token abt token = true)
    (hsmtp : smtp_ok = true)
    (otp_expiry2 now2 : Nat) (gen2 : String) (email_ok2 : Bool)
    (users2 : List UserRec) (otps2 : List OtpRec) (email2 : String) :
    ((initiate_bootstrap abt otp_expiry now gen_otp smtp_ok email_ok users otps
        token email).2.filter fun r => r.email == email && r.otp_type == "bootstrap")
      = [{ email := email, otp_code := gen_otp, otp_type := "bootstrap",
           expires_at := now + otp_expiry, attempts := 0, used := false }] ∧
    (∀ u2, users2.find? (fun u => u.email == email2) = some u2 → u2.status = "active" →
      (initiate_password_reset otp_expiry2 now2 gen2 email_ok2 users2 otps2 email2).2.1
        = otps2 ++ [{ email := email2, otp_code := gen2, otp_type := "forgot_password",
                      expires_at := now2 + otp_expiry2, attempts := 0, used := false }]) := by
  constructor
  · cases email_ok <;>
      simp [initiate_bootstrap, hlocked, htok, hsmtp, List.filter_append, filter_not_filter]
  · intro u2 hfind hstatus
    have hs : (u2.status == "active") = true := by simp [hstatus]
    simp [initiate_password_reset, hfind, hs]

/-- Witness for the amended C9: a stale and a used bootstrap row are both
deleted when a fresh bootstrap code is issued, and the password-reset
path appends its row after an existing one. -/
theorem c9_amended_otp_supersession_witness :
    ((initiate_bootstrap (some "T") 600 100 "333333" true true []
        [⟨"adm@x.com", "111111", "bootstrap", 50, 0, false⟩,
         ⟨"adm@x.com", "222222", "bootstrap", 5000, 3, true⟩]
        "T" "adm@x.com").2.filter
          fun r => r.email == "adm@x.com" && r.otp_type == "bootstrap")
      = [{ email := "adm@x.com", otp_code := "333333", otp_type := "bootstrap",
           expires_at := 100 + 600, attempts := 0, used := false }] ∧
    (initiate_password_reset 600 100 "222222" true
        [⟨2, "bob", "bob@x.com", "Pw", "Bob", "editor", false, "", none, 0, none,
          "active", none⟩]
        [⟨"bob@x.com", "111111", "forgot_password", 5000, 0, false⟩] "bob@x.com").2.1
      = [⟨"bob@x.com", "111111", "forgot_password", 5000, 0, false⟩] ++
        [{ email := "bob@x.com", otp_code := "222222", otp_type := "forgot_password",
           expires_at := 100 + 600, attempts := 0, used := false }] := by
  have h := c9_amended_otp_supersession (some "T") 600 100 "333333" true true []
    [⟨"adm@x.com", "111111", "bootstrap", 50, 0, false⟩,
     ⟨"adm@x.com", "222222", "bootstrap", 5000, 3, true⟩]
    "T" "adm@x.com" (by decide) (by decide) rfl 600 100 "222222" true
    [⟨2, "bob", "bob@x.com", "Pw", "Bob", "editor", false, "", none, 0, none,
      "active", none⟩]
    [⟨"bob@x.com", "111111", "forgot_password", 5000, 0, false⟩] "bob@x.com"
  exact ⟨h.1, h.2 ⟨2, "bob", "bob@x.com", "Pw", "Bob", "editor", false, "", none, 0, none,
    "active", none⟩ (by decide) rfl⟩

/-- C5 (code bug): completing bootstrap 2FA setup persists the backup
codes carried in the setup token as a comma-joined string of bcrypt
(`password_service.hash_password`) hashes — not as the structured
`{hash, salt, used}` list with a fresh salt per code that
`hash_backup_codes` produces; moreover a stored value of that shape is
not valid JSON, so `verify_backup_code` (whose parser accepts only the
structured list) rejects every candidate against it. -/
theorem c5_bootstrap_persists_bcrypt_join
    (bcrypt : String → String) (vt : String → String → Bool)
    (jwt_expiry tm m now : Nat) (codes : List String) (u : UserRec) (tc : String)
    (hexp : now ≤ tm + m * 60)
    (hid : u.id ≠ 0)
    (hstatus : u.status = "pending_2fa")
    (hvt : vt u.two_factor_secret tc = true) :
    (verify_2fa_setup bcrypt vt jwt_expiry now [u]
        (create_temp_token { user_id := some u.id, email := some u.email,
                             purpose := some "2fa_setup", backup_codes := codes } tm m)
        tc).1.1 = true ∧
    (verify_2fa_setup bcrypt vt jwt_expiry now [u]
        (create_temp_token { user_id := some u.id, email := some u.email,
                             purpose := some "2fa_setup", backup_codes := codes } tm m)
        tc).2
      = [{ u with two_factor_enabled := true,
                  backup_codes := some (String.intercalate "," (codes.map bcrypt)),
                  status := "active", last_login_at := some now }] ∧
    (∀ (parse : String → Option (List BackupEntry)) (dump : List BackupEntry → String)
        (sha : String → String) (cand : String),
      parse (String.intercalate "," (codes.map bcrypt)) = none →
      verify_backup_code parse dump sha
          (some (String.intercalate "," (codes.map bcrypt))) cand
        = (false, some (String.intercalate "," (codes.map bcrypt)))) := by
  have hnl : ¬ (tm + m * 60 < now) := Nat.not_lt.mpr hexp
  have hfind : ([u].find? fun v => v.id == u.id) = some u := by simp
  refine ⟨?_, ?_, ?_⟩
  · simp [verify_2fa_setup, decode_temp_token, verify_token, create_temp_token, hnl,
      hid, hfind, hstatus, hvt, commit_user]
  · simp [verify_2fa_setup, decode_temp_token, verify_token, create_temp_token, hnl,
      hid, hfind, hstatus, hvt, commit_user]
  · intro parse dump sha cand hp
    simp [verify_backup_code, hp]

/-- Witness for C5: a concrete pending-2FA admin and two backup codes;
the persisted column is the comma-joined bcrypt string, and no candidate
can verify against it. -/
theorem c5_bootstrap_persists_bcrypt_join_witness :
    (verify_2fa_setup (fun s => String.append "$2b$12$" s) (fun _ _ => true) 86400 100
        [pend_admin]
        (create_temp_token { user_id := some pend_admin.id,
                             email := some pend_admin.email,
                             purpose := some "2fa_setup",
                             backup_codes := ["AAAA1111", "BBBB2222"] } 0 30)
        "000000").2
      = [{ pend_admin with
            two_factor_enabled := true,
            backup_codes := some (String.intercalate ","
              (["AAAA1111", "BBBB2222"].map fun s => String.append "$2b$12$" s)),
            status := "active", last_login_at := some 100 }] ∧
    verify_backup_code (fun _ => none) (fun _ => "[]") (fun s => s)
        (some (String.intercalate ","
          (["AAAA1111", "BBBB2222"].map fun s => String.append "$2b$12$" s))) "AAAA1111"
      = (false, some (String.intercalate ","
          (["AAAA1111", "BBBB2222"].map fun s => String.append "$2b$12$" s))) := by
  have h := c5_bootstrap_persists_bcrypt_join (fun s => String.append "$2b$12$" s)
    (fun _ _ => true) 86400 0 30 100 ["AAAA1111", "BBBB2222"] pend_admin "000000"
    (by decide) (by decide) rfl rfl
  exact ⟨h.2.1, h.2.2 (fun _ => none) (fun _ => "[]") (fun s => s) "AAAA1111" rfl⟩

/-- Helper: the scan loop finds nothing when no entry matches. -/
theorem mark_first_match_eq_none (sha : String → String) (p : String) :
    ∀ l : List BackupEntry, (∀ e ∈ l, entry_matches sha p e = false) →
      mark_first_match sha p l = none := by
  intro l
  induction l with
  | nil => intro _; rfl
  | cons e rest ih =>
    intro h
    have he := h e (List.mem_cons_self e rest)
    have hrest : ∀ x ∈ rest, entry_matches sha p x = false :=
      fun x hx => h x (List.mem_cons_of_mem e hx)
    cases hu : e.used with
    | true => simp [mark_first_match, hu, ih hrest]
    | false =>
      have hcmp : (sha (p ++ e.salt) == e.hash) = false := by
        simpa [entry_matches, hu] using he
      simp [mark_first_match, hu, hcmp, ih hrest]

/-- Helper: when the verified code occurs nowhere in the pair list, the
marked entry list is just the fresh one. -/
theorem marked_entries_of_not_mem (sha : String → String) (c : String)
    (pl : List (String × String)) (h : c ∉ pl.map Prod.fst) :
    marked_entries sha c pl
      = pl.map fun x => { hash := sha (x.1 ++ x.2), salt := x.2, used := false } := by
  unfold marked_entries
  refine List.map_congr_left ?_
  intro x hx
  have hne : ¬ x.1 = c := fun he => h (he ▸ List.mem_map_of_mem Prod.fst hx)
  simp [hne]

/-- Helper: on a freshly hashed entry list whose codes are distinct and
collision-free for the candidate `c ∈ codes`, the scan loop marks exactly
the entry of `c`, producing `marked_entries`. -/
theorem mark_first_match_fresh (sha : String → String) (c : String) :
    ∀ pl : List (String × String),
      (∀ x ∈ pl, sha (c ++ x.2) = sha (x.1 ++ x.2) → x.1 = c) →
      c ∈ pl.map Prod.fst → (pl.map Prod.fst).Nodup →
      mark_first_match sha c
          (pl.map fun x => { hash := sha (x.1 ++ x.2), salt := x.2, used := false })
        = some (marked_entries sha c pl) := by
  intro pl
  induction pl with
  | nil => intro _ hmem _; simp at hmem
  | cons x rest ih =>
    intro hcoll hmem hnodup
    simp only [List.map_cons, List.nodup_cons] at hnodup
    by_cases hx : x.1 = c
    · have hnotmem : c ∉ rest.map Prod.fst := hx ▸ hnodup.1
      have h1 : marked_entries sha c (x :: rest)
          = { hash := sha (x.1 ++ x.2), salt := x.2, used := (x.1 == c) } ::
            marked_entries sha c rest := rfl
      rw [List.map_cons, h1, marked_entries_of_not_mem sha c rest hnotmem]
      have hx2 : (x.1 == c) = true := by simp [hx]
      have hcmp : (sha (c ++ x.2) == sha (x.1 ++ x.2)) = true := by simp [hx]
      simp [mark_first_match, hcmp, hx2]
    · have hcmp : (sha (c ++ x.2) == sha (x.1 ++ x.2)) = false := by
        refine beq_eq_false_iff_ne.mpr ?_
        intro he
        exact hx (hcoll x (List.mem_cons_self x rest) he)
      have hmem2 : c ∈ rest.map Prod.fst := by
        rcases (by simpa using hmem : c = x.1 ∨ c ∈ rest.map Prod.fst) with h | h
        · exact absurd h.symm hx
        · exact h
      have hcoll2 : ∀ y ∈ rest, sha (c ++ y.2) = sha (y.1 ++ y.2) → y.1 = c :=
        fun y hy => hcoll y (List.mem_cons_of_mem x hy)
      have hx2 : (x.1 == c) = false := beq_eq_false_iff_ne.mpr hx
      simp [mark_first_match, hcmp, marked_entries, hx2,
        ih hcoll2 hmem2 hnodup.2]

/-- Helper: every entry of a fresh list is unused. -/
theorem count_unused_fresh (sha : String → String) :
    ∀ pl : List (String × String),
      ((pl.map fun x =>
          { hash := sha (x.1 ++ x.2), salt := x.2, used := false : BackupEntry }).filter
        fun e => !e.used).length = pl.length := by
  intro pl
  induction pl with
  | nil => rfl
  | cons x rest ih => simp [List.filter_cons, ih]

/-- Helper: after marking, the unused count has dropped by exactly one. -/
theorem count_unused_marked (sha : String → String) (c : String) :
    ∀ pl : List (String × String), c ∈ pl.map Prod.fst → (pl.map Prod.fst).Nodup →
      ((marked_entries sha c pl).filter fun e => !e.used).length + 1 = pl.length := by
  intro pl
  induction pl with
  | nil => intro hmem _; simp at hmem
  | cons x rest ih =>
    intro hmem hnodup
    simp only [List.map_cons, List.nodup_cons] at hnodup
    by_cases hx : x.1 = c
    · have hnotmem : c ∉ rest.map Prod.fst := hx ▸ hnodup.1
      have h1 : marked_entries sha c (x :: rest)
          = { hash := sha (x.1 ++ x.2), salt := x.2, used := (x.1 == c) } ::
            marked_entries sha c rest := rfl
      rw [h1, marked_entries_of_not_mem sha c rest hnotmem]
      have hx2 : (x.1 == c) = true := by simp [hx]
      simp [List.filter_cons, hx2, count_unused_fresh]
    · have hmem2 : c ∈ rest.map Prod.fst := by
        rcases (by simpa using hmem : c = x.1 ∨ c ∈ rest.map Prod.fst) with h | h
        · exact absurd h.symm hx
        · exact h
      have hx2 : (x.1 == c) = false := beq_eq_false_iff_ne.mpr hx
      have := ih hmem2 hnodup.2
      simp [marked_entries, List.filter_cons, hx2] at this ⊢
      omega

/-- Helper: the scan loop never matches anything on a marked list whose
unused entries are all collision-free non-matches. -/
theorem mark_first_match_marked (sha : String → String) (c : String)
    (pl : List (String × String))
    (hcoll : ∀ x ∈ pl, sha (c ++ x.2) = sha (x.1 ++ x.2) → x.1 = c) :
    mark_first_match sha c (marked_entries sha c pl) = none := by
  apply mark_first_match_eq_none
  intro e he
  obtain ⟨x, hx, rfl⟩ := List.mem_map.mp he
  by_cases hxc : x.1 = c
  · simp [entry_matches, hxc]
  · have hcmp : (sha (c ++ x.2) == sha (x.1 ++ x.2)) = false := by
      refine beq_eq_false_iff_ne.mpr ?_
      intro he2
      exact hxc (hcoll x hx he2)
    have hx2 : (x.1 == c) = false := beq_eq_false_iff_ne.mpr hxc
    simp [entry_matches, hx2, hcmp]

/-- C6: for a freshly generated and hashed set of 10 backup codes
(distinct, normalized, digest collision-free for the candidate, and a
JSON codec that round-trips on the two lists involved), verifying the
same code twice succeeds exactly once: the first call returns `True` and
marks the entry used in the returned structure, the unused count drops
from 10 to exactly 9, and the second call returns `False` with the
stored structure — and hence the unused count — unchanged. -/
theorem c6_backup_code_one_time_use
    (parse : String → Option (List BackupEntry)) (dump : List BackupEntry → String)
    (sha : String → String) (codes salts : List String) (c : String)
    (hlen : codes.length = salts.length) (hten : codes.length = 10)
    (hmem : c ∈ codes) (hnodup : codes.Nodup) (hnorm : py_strip (py_upper c) = c)
    (hcoll : ∀ x ∈ codes.zip salts, sha (c ++ x.2) = sha (x.1 ++ x.2) → x.1 = c)
    (hr1 : parse (dump (hash_backup_codes sha codes salts))
             = some (hash_backup_codes sha codes salts))
    (hr2 : ∀ l, mark_first_match sha c (hash_backup_codes sha codes salts) = some l →
             parse (dump l) = some l) :
    get_unused_backup_codes_count parse
        (some (dump (hash_backup_codes sha codes salts))) = 10 ∧
    (verify_backup_code parse dump sha
        (some (dump (hash_backup_codes sha codes salts))) c).1 = true ∧
    get_unused_backup_codes_count parse
        (verify_backup_code parse dump sha
          (some (dump (hash_backup_codes sha codes salts))) c).2 = 9 ∧
    (verify_backup_code parse dump sha
        (verify_backup_code parse dump sha
          (some (dump (hash_backup_codes sha codes salts))) c).2 c).1 = false ∧
    (verify_backup_code parse dump sha
        (verify_backup_code parse dump sha
          (some (dump (hash_backup_codes sha codes salts))) c).2 c).2
      = (verify_backup_code parse dump sha
          (some (dump (hash_backup_codes sha codes salts))) c).2 ∧
    get_unused_backup_codes_count parse
        (verify_backup_code parse dump sha
          (verify_backup_code parse dump sha
            (some (dump (hash_backup_codes sha codes salts))) c).2 c).2
      = get_unused_backup_codes_count parse
          (verify_backup_code parse dump sha
            (some (dump (hash_backup_codes sha codes salts))) c).2 := by
  have hfst : (codes.zip salts).map Prod.fst = codes :=
    List.map_fst_zip codes salts (le_of_eq hlen)
  have hmem2 : c ∈ (codes.zip salts).map Prod.fst := by rw [hfst]; exact hmem
  have hnd2 : ((codes.zip salts).map Prod.fst).Nodup := by rw [hfst]; exact hnodup
  have hziplen : (codes.zip salts).length = 10 := by
    rw [List.length_zip, ← hlen, hten, Nat.min_self]
  have hmark : mark_first_match sha c (hash_backup_codes sha codes salts)
      = some (marked_entries sha c (codes.zip salts)) :=
    mark_first_match_fresh sha c (codes.zip salts) hcoll hmem2 hnd2
  have hM : parse (dump (marked_entries sha c (codes.zip salts)))
      = some (marked_entries sha c (codes.zip salts)) := hr2 _ hmark
  have hv1 : verify_backup_code parse dump sha
      (some (dump (hash_backup_codes sha codes salts))) c
      = (true, some (dump (marked_entries sha c (codes.zip salts)))) := by
    simp [verify_backup_code, hr1, hnorm, hmark]
  have hv2 : verify_backup_code parse dump sha
      (some (dump (marked_entries sha c (codes.zip salts)))) c
      = (false, some (dump (marked_entries sha c (codes.zip salts)))) := by
    simp [verify_backup_code, hM, hnorm,
      mark_first_match_marked sha c (codes.zip salts) hcoll]
  have hc0 : get_unused_backup_codes_count parse
      (some (dump (hash_backup_codes sha codes salts))) = 10 := by
    have hstep : get_unused_backup_codes_count parse
        (some (dump (hash_backup_codes sha codes salts)))
        = ((hash_backup_codes sha codes salts).filter fun e => !e.used).length := by
      unfold get_unused_backup_codes_count
      rw [show (some (dump (hash_backup_codes sha codes salts))).bind parse
            = some (hash_backup_codes sha codes salts) from hr1]
    rw [hstep]
    have hcf := count_unused_fresh sha (codes.zip salts)
    rw [hziplen] at hcf
    exact hcf
  have hc1 : get_unused_backup_codes_count parse
      (some (dump (marked_entries sha c (codes.zip salts)))) = 9 := by
    have hstep : get_unused_backup_codes_count parse
        (some (dump (marked_entries sha c (codes.zip salts))))
        = ((marked_entries sha c (codes.zip salts)).filter fun e => !e.used).length := by
      unfold get_unused_backup_codes_count
      rw [show (some (dump (marked_entries sha c (codes.zip salts)))).bind parse
            = some (marked_entries sha c (codes.zip salts)) from hM]
    rw [hstep]
    have hcm := count_unused_marked sha c (codes.zip salts) hmem2 hnd2
    rw [hziplen] at hcm
    omega
  refine ⟨hc0, ?_, ?_, ?_, ?_, ?_⟩ <;> rw [hv1] <;> simp [hv2, hc1]

/-- Witness for C6 with ten concrete codes, the identity digest and the
concrete two-string codec `parse_c`/`dump_c`. -/
theorem c6_backup_code_one_time_use_witness :
    get_unused_backup_codes_count parse_c
        (some (dump_c (hash_backup_codes (fun s => s) codes_c salts_c))) = 10 ∧
    (verify_backup_code parse_c dump_c (fun s => s)
        (some (dump_c (hash_backup_codes (fun s => s) codes_c salts_c))) "AAAA0000").1
      = true ∧
    get_unused_backup_codes_count parse_c
        (verify_backup_code parse_c dump_c (fun s => s)
          (some (dump_c (hash_backup_codes (fun s => s) codes_c salts_c))) "AAAA0000").2
      = 9 ∧
    (verify_backup_code parse_c dump_c (fun s => s)
        (verify_backup_code parse_c dump_c (fun s => s)
          (some (dump_c (hash_backup_codes (fun s => s) codes_c salts_c)))
          "AAAA0000").2 "AAAA0000").1 = false := by
  have h := c6_backup_code_one_time_use parse_c dump_c (fun s => s) codes_c salts_c
    "AAAA0000" (by decide) (by decide) (by decide) (by decide) (by decide) (by decide)
    (by decide)
    (by
      intro l hl
      have h2 : mark_first_match (fun s => s) "AAAA0000"
          (hash_backup_codes (fun s => s) codes_c salts_c) = some entries_marked_c := by
        decide
      rw [h2] at hl
      cases hl
      decide)
  exact ⟨h.1, h.2.1, h.2.2.1, h.2.2.2.1⟩

end ApiStudio
